import Mathlib

/-!
Verification development for the `movie_search_console` repository.

The program is a Python console application.  We give a shallow embedding of
its search-and-pagination core:

* `LogWriter`       — the deduplicating analytics logger (`src/log_writer.py`);
* `MysqlConnector`  — the query builder / data access layer
  (`src/mysql_connector.py`), over an explicit relational model of the
  `film` / `film_category` / `category` / `film_actor` / `actor` tables;
* `SearchEngine`    — the logging facade (`src/search_engine.py`);
* `Pagination` and `UiController` — the pagination loops
  (`src/pagination.py`, `src/ui_controller.py`).

Python strings are modelled as `List Char` (`PStr`): Python's `str.strip`,
`str.lower`, string comparison and `sorted` are total functions on code-point
sequences, embedded below as structurally recursive Lean functions so that all
definitions evaluate inside the kernel.
-/

/-- Model of a Python `str`: a sequence of unicode code points. -/
abbrev PStr := List Char

/-- Python `str.lower()` (code-point wise lowering; ASCII-faithful). -/
def pyLower (s : PStr) : PStr := s.map Char.toLower

/-- Python `str.strip()`: drop whitespace from both ends. -/
def pyStrip (s : PStr) : PStr :=
  ((s.dropWhile Char.isWhitespace).reverse.dropWhile Char.isWhitespace).reverse

/-- Python string comparison `a <= b`: lexicographic on code points. -/
def lexLe : PStr → PStr → Bool
  | [], _ => true
  | _ :: _, [] => false
  | a :: as, b :: bs => if a = b then lexLe as bs else decide (a < b)

/-- The ordering used by Python's `sorted` on strings, as a relation. -/
def strLe (a b : PStr) : Prop := lexLe a b = true

instance : DecidableRel strLe := fun a b =>
  inferInstanceAs (Decidable (lexLe a b = true))

theorem lexLe_total : ∀ a b : PStr, lexLe a b = true ∨ lexLe b a = true
  | [], _ => Or.inl rfl
  | _ :: _, [] => Or.inr rfl
  | a :: as, b :: bs => by
    by_cases hab : a = b
    · subst hab
      simpa [lexLe] using lexLe_total as bs
    · have hba : ¬ b = a := fun h => hab h.symm
      rcases lt_or_gt_of_ne hab with h | h
      · exact Or.inl (by simp [lexLe, hab, h])
      · exact Or.inr (by simp [lexLe, hba, h])

theorem lexLe_trans :
    ∀ a b c : PStr, lexLe a b = true → lexLe b c = true → lexLe a c = true
  | [], _, _, _, _ => rfl
  | _ :: _, [], _, h1, _ => by simp [lexLe] at h1
  | _ :: _, _ :: _, [], _, h2 => by simp [lexLe] at h2
  | a :: as, b :: bs, c :: cs, h1, h2 => by
    by_cases hab : a = b <;> by_cases hbc : b = c
    · subst hab; subst hbc
      simp only [lexLe, if_pos rfl] at h1 h2 ⊢
      exact lexLe_trans as bs cs h1 h2
    · subst hab
      simp only [lexLe, if_pos rfl, if_neg hbc, decide_eq_true_eq] at h1 h2 ⊢
      simp [hbc, h2]
    · subst hbc
      simp only [lexLe, if_pos rfl, if_neg hab, decide_eq_true_eq] at h1 h2 ⊢
      simp [hab, h1]
    · simp only [lexLe, if_neg hab, if_neg hbc, decide_eq_true_eq] at h1 h2
      have hac : a < c := lt_trans h1 h2
      simp [lexLe, ne_of_lt hac, hac]

theorem lexLe_antisymm :
    ∀ a b : PStr, lexLe a b = true → lexLe b a = true → a = b
  | [], [], _, _ => rfl
  | [], _ :: _, _, h2 => by simp [lexLe] at h2
  | _ :: _, [], h1, _ => by simp [lexLe] at h1
  | a :: as, b :: bs, h1, h2 => by
    by_cases hab : a = b
    · subst hab
      simp only [lexLe, if_pos rfl] at h1 h2
      rw [lexLe_antisymm as bs h1 h2]
    · have hba : ¬ b = a := fun h => hab h.symm
      simp only [lexLe, if_neg hab, if_neg hba, decide_eq_true_eq] at h1 h2
      exact absurd h2 (lt_asymm h1)

instance : IsTotal PStr strLe := ⟨lexLe_total⟩

instance : IsTrans PStr strLe := ⟨fun a b c => lexLe_trans a b c⟩

instance : IsAntisymm PStr strLe := ⟨fun a b => lexLe_antisymm a b⟩

/-- Python `str(i)` for an `int`, as a code-point sequence. -/
def intToChars (i : Int) : PStr :=
  match i with
  | Int.ofNat n => Nat.toDigits 10 n
  | Int.negSucc n => '-' :: Nat.toDigits 10 (n + 1)

/-- Python `sorted` on a list of strings.  Python's sort is specified by its
output: the stable, `<=`-sorted permutation of the input.  Since the
lexicographic order on strings is antisymmetric, equal keys are identical
elements, so the sorted permutation is unique and any sorting algorithm
produces it; we use Mathlib's structurally recursive insertion sort so the
function evaluates in the kernel. -/
def pySorted (l : List PStr) : List PStr := List.insertionSort strLe l

/-- Substring test: does `needle` occur contiguously inside `haystack`?
Models the catalog store's substring-on-title filter (spec section 6). -/
def containsSub (needle : PStr) : PStr → Bool
  | [] => needle.isEmpty
  | c :: rest => needle.isPrefixOf (c :: rest) || containsSub needle rest

namespace LogWriter

/-- The normalized parameter fields of an analytics document, one variant per
event type, mirroring the three document shapes inserted by
`src/log_writer.py` (`keyword` / `genres`+`years` / `genres`+`year`). -/
inductive LogParams where
  | keywordP (keyword : PStr)
  | genreYearP (genres : List PStr) (years : PStr)
  | genreExactYearP (genres : List PStr) (year : Int)
deriving DecidableEq, Repr

/-- One document of the analytics log collection: the event's type and
normalized parameters plus the insertion timestamp (UTC seconds). -/
structure LogDoc where
  params : LogParams
  timestamp : Nat
deriving DecidableEq, Repr

/-- Result of one invocation of the logging procedure: the collection
afterwards, how many `find_one` store lookups were issued, and whether an
`insert_one` happened. -/
structure LogOutcome where
  coll : List LogDoc
  lookups : Nat
  inserted : Bool
deriving DecidableEq, Repr

/-- Genre-list cleaning of `log_writer.py`:
`[g.strip() for g in genres if g and g.strip()]`. -/
def cleanGenres (genres : List PStr) : List PStr :=
  (genres.filter (fun g => decide (g ≠ []) && decide (pyStrip g ≠ []))).map pyStrip

/-- The `years` field of a `genre_year` document: `f"{year_from}–{year_to}"`. -/
def yearsRepr (yearFrom yearTo : Int) : PStr :=
  intToChars yearFrom ++ ('–' :: intToChars yearTo)

/-- The `find_one` dedup lookup: is there a document with exactly these
normalized parameters and `timestamp >= now - 5` seconds?  (Written as
`now <= timestamp + 5` to avoid truncated subtraction.) -/
def findRecent (p : LogParams) (now : Nat) (coll : List LogDoc) : Bool :=
  coll.any (fun d => decide (d.params = p) && decide (now ≤ d.timestamp + 5))

/-- The shared lookup-then-insert step: one `find_one`; if no recent duplicate
is found, one `insert_one` of a document timestamped `now`. -/
def dedupInsert (p : LogParams) (now : Nat) (coll : List LogDoc) : LogOutcome :=
  if findRecent p now coll then ⟨coll, 1, false⟩
  else ⟨coll ++ [⟨p, now⟩], 1, true⟩

/-- A raw search event as received by the `log_search` decorator, one variant
per `log_type`.  For `genre_exact_year` the year goes through `int(raw_year)`,
which we model by an `Option Int` (`none` = the conversion raised). -/
inductive SearchEvent where
  | keyword (kw : PStr)
  | genreYear (genres : List PStr) (yearFrom yearTo : Int)
  | genreExactYear (genres : List PStr) (rawYear : Option Int)
deriving DecidableEq, Repr

/-- The logging action performed by the `log_search` decorator when the
`logged` bypass flag is not set (lines 119–193 of `src/log_writer.py`).  The
standalone helpers `log_keyword_search`, `log_genre_year_search`,
`log_genre_exact_year_search` in the same file have byte-for-byte the same
normalization, rejection, lookup and insert logic. -/
def logAction (ev : SearchEvent) (now : Nat) (coll : List LogDoc) : LogOutcome :=
  match ev with
  | SearchEvent.keyword kw =>
    let keyword := pyStrip (pyLower kw)
    if keyword = [] then ⟨coll, 0, false⟩
    else dedupInsert (LogParams.keywordP keyword) now coll
  | SearchEvent.genreYear genres yearFrom yearTo =>
    let genresClean := cleanGenres genres
    if genresClean = [] then ⟨coll, 0, false⟩
    else dedupInsert
      (LogParams.genreYearP (pySorted genresClean) (yearsRepr yearFrom yearTo)) now coll
  | SearchEvent.genreExactYear genres rawYear =>
    let genresClean := cleanGenres genres
    match rawYear with
    | none => ⟨coll, 0, false⟩
    | some year =>
      if genresClean = [] ∨ year < 1990 then ⟨coll, 0, false⟩
      else dedupInsert
        (LogParams.genreExactYearP (pySorted genresClean) year) now coll

/-- The normalized dedup key of an event: the parameters the logger would
store, or `none` if the event is rejected early. -/
def normParams (ev : SearchEvent) : Option LogParams :=
  match ev with
  | SearchEvent.keyword kw =>
    let keyword := pyStrip (pyLower kw)
    if keyword = [] then none
    else some (LogParams.keywordP keyword)
  | SearchEvent.genreYear genres yearFrom yearTo =>
    let genresClean := cleanGenres genres
    if genresClean = [] then none
    else some (LogParams.genreYearP (pySorted genresClean) (yearsRepr yearFrom yearTo))
  | SearchEvent.genreExactYear genres rawYear =>
    let genresClean := cleanGenres genres
    match rawYear with
    | none => none
    | some year =>
      if genresClean = [] ∨ year < 1990 then none
      else some (LogParams.genreExactYearP (pySorted genresClean) year)

theorem logAction_eq_normParams (ev : SearchEvent) (now : Nat) (coll : List LogDoc) :
    logAction ev now coll =
      match normParams ev with
      | none => ⟨coll, 0, false⟩
      | some p => dedupInsert p now coll := by
  cases ev with
  | keyword kw =>
    simp only [logAction, normParams]
    split <;> rfl
  | genreYear genres yearFrom yearTo =>
    simp only [logAction, normParams]
    split <;> rfl
  | genreExactYear genres rawYear =>
    cases rawYear with
    | none => rfl
    | some year =>
      simp only [logAction, normParams]
      split <;> rfl

theorem logAction_of_normParams {ev : SearchEvent} {p : LogParams}
    (h : normParams ev = some p) (now : Nat) (coll : List LogDoc) :
    logAction ev now coll = dedupInsert p now coll := by
  rw [logAction_eq_normParams, h]

theorem logAction_of_rejected {ev : SearchEvent}
    (h : normParams ev = none) (now : Nat) (coll : List LogDoc) :
    logAction ev now coll = ⟨coll, 0, false⟩ := by
  rw [logAction_eq_normParams, h]

end LogWriter

namespace MysqlConnector

/-- A row of the `film` table. -/
structure FilmRow where
  film_id : Nat
  title : PStr
  description : PStr
  release_year : Int
  rating : PStr
deriving DecidableEq, Repr

/-- A row of the `film_category` link table. -/
structure FilmCategoryRow where
  film_id : Nat
  category_id : Nat
deriving DecidableEq, Repr

/-- A row of the `category` (genre) table. -/
structure CategoryRow where
  category_id : Nat
  name : PStr
deriving DecidableEq, Repr

/-- A row of the `film_actor` link table. -/
structure FilmActorRow where
  film_id : Nat
  actor_id : Nat
deriving DecidableEq, Repr

/-- A row of the `actor` table. -/
structure ActorRow where
  actor_id : Nat
  first_name : PStr
  last_name : PStr
deriving DecidableEq, Repr

/-- The catalog database. -/
structure Db where
  film : List FilmRow
  film_category : List FilmCategoryRow
  category : List CategoryRow
  film_actor : List FilmActorRow
  actor : List ActorRow
deriving DecidableEq, Repr

/-- One movie record as returned to the caller: base film columns plus the
aggregated `genre` and `actors` strings (`NULL`, i.e. `none`, when the
aggregate is over no rows). -/
structure MovieRec where
  title : PStr
  description : PStr
  release_year : Int
  rating : PStr
  genre : Option PStr
  actors : Option PStr
deriving DecidableEq, Repr

/-- The `{"movies": ..., "total_count": ...}` result shape of the two genre
search functions. -/
structure GenreResult where
  movies : List MovieRec
  total_count : Nat
deriving DecidableEq, Repr

/-- Kinds of SQL statements the module can issue, recorded as a trace so that
theorems can talk about which queries a call issues. -/
inductive QueryKind where
  | countQ
  | pageQ
deriving DecidableEq, Repr

/-- The data-access environment of one call: `conn = none` models
`create_connection()` returning `None` (store unreachable), and
`queryFails = true` models `cursor.execute` raising `mysql.connector.Error`
on every statement. -/
structure Store where
  conn : Option Db
  queryFails : Bool
deriving DecidableEq, Repr

/-- Comma-join of `GROUP_CONCAT(... SEPARATOR ', ')`. -/
def joinComma : List PStr → PStr
  | [] => []
  | [s] => s
  | s :: rest => s ++ (',' :: ' ' :: joinComma rest)

/-- A `GROUP_CONCAT(DISTINCT v SEPARATOR ', ')` aggregate over the listed
values: `NULL` (`none`) over the empty group, otherwise the comma-join of the
distinct values (order store-dependent; modelled by first occurrence). -/
def groupConcatDistinct (values : List PStr) : Option PStr :=
  match values.eraseDups with
  | [] => none
  | l => some (joinComma l)

/-- All genre names joined to a film (`film_category` x `category`). -/
def filmGenreNames (db : Db) (fid : Nat) : List PStr :=
  (db.film_category.filter (fun fc => fc.film_id == fid)).flatMap
    (fun fc => (db.category.filter (fun c => c.category_id == fc.category_id)).map
      CategoryRow.name)

/-- All actor names joined to a film, as `CONCAT(first_name, ' ', last_name)`. -/
def filmActorNames (db : Db) (fid : Nat) : List PStr :=
  (db.film_actor.filter (fun fa => fa.film_id == fid)).flatMap
    (fun fa => (db.actor.filter (fun a => a.actor_id == fa.actor_id)).map
      (fun a => a.first_name ++ (' ' :: a.last_name)))

/-- The `SELECT` output row for one film after `GROUP BY f.film_id` with the
two `GROUP_CONCAT(DISTINCT ...)` aggregates. -/
def rowToMovie (db : Db) (f : FilmRow) : MovieRec :=
  { title := f.title
    description := f.description
    release_year := f.release_year
    rating := f.rating
    genre := groupConcatDistinct (filmGenreNames db f.film_id)
    actors := groupConcatDistinct (filmActorNames db f.film_id) }

/-- Does the film have at least one of the requested genres?  This is the
`JOIN film_category JOIN category ... WHERE c.name IN (...)` membership test
(IN-list semantics: at least one, not all). -/
def filmHasGenre (db : Db) (gs : List PStr) (fid : Nat) : Bool :=
  db.film_category.any (fun fc => fc.film_id == fid &&
    db.category.any (fun c => c.category_id == fc.category_id && gs.contains c.name))

/-- `search_by_keyword` of `src/mysql_connector.py` (lines 116–146): on a dead
connection or a raised query error, return `[]`; otherwise one page query —
films whose title contains the keyword case-insensitively (the catalog
store's `LIKE '%kw%'` substring-on-title filter, spec section 6), grouped per
film, `LIMIT 10 OFFSET offset`.  No count query exists in this mode. -/
def search_by_keyword (st : Store) (keyword : PStr) (offset : Nat) :
    List MovieRec × List QueryKind :=
  match st.conn with
  | none => ([], [])
  | some db =>
    if st.queryFails then ([], [QueryKind.pageQ])
    else
      let rows := db.film.filter (fun f => containsSub (pyLower keyword) (pyLower f.title))
      (((rows.drop offset).take 10).map (rowToMovie db), [QueryKind.pageQ])

/-- Genre-list cleaning of `src/mysql_connector.py`:
`[g.strip() for g in genres if g.strip()]`. -/
def genresClean (genres : List PStr) : List PStr :=
  (genres.filter (fun g => decide (pyStrip g ≠ []))).map pyStrip

/-- `search_by_genre_year` of `src/mysql_connector.py` (lines 448–502): dead
connection gives the empty result; otherwise a count query and a page query
are issued, both with the identical
`WHERE c.name IN (genres_clean) AND f.release_year BETWEEN year_from AND year_to`
filter grouped per film.  With an empty cleaned genre list the generated
`IN ()` list is empty, which the SQL engine rejects as malformed — modelled,
like a failing store, as the count query raising; the handler then returns
the empty result. -/
def search_by_genre_year (st : Store) (genres : List PStr)
    (year_from year_to : Int) (offset : Nat) : GenreResult × List QueryKind :=
  match st.conn with
  | none => (⟨[], 0⟩, [])
  | some db =>
    let gc := genresClean genres
    if st.queryFails || decide (gc = []) then (⟨[], 0⟩, [QueryKind.countQ])
    else
      let total := (db.film.filter (fun f => filmHasGenre db gc f.film_id &&
        decide (year_from ≤ f.release_year ∧ f.release_year ≤ year_to))).length
      let page := ((db.film.filter (fun f => filmHasGenre db gc f.film_id &&
        decide (year_from ≤ f.release_year ∧ f.release_year ≤ year_to))).drop offset).take 10
      (⟨page.map (rowToMovie db), total⟩, [QueryKind.countQ, QueryKind.pageQ])

/-- `search_by_genre_exact_year` of `src/mysql_connector.py` (lines 582–636):
as `search_by_genre_year` but with the year filter `f.release_year = year` in
both the count query and the page query. -/
def search_by_genre_exact_year (st : Store) (genres : List PStr)
    (year : Int) (offset : Nat) : GenreResult × List QueryKind :=
  match st.conn with
  | none => (⟨[], 0⟩, [])
  | some db =>
    let gc := genresClean genres
    if st.queryFails || decide (gc = []) then (⟨[], 0⟩, [QueryKind.countQ])
    else
      let total := (db.film.filter (fun f => filmHasGenre db gc f.film_id &&
        decide (f.release_year = year))).length
      let page := ((db.film.filter (fun f => filmHasGenre db gc f.film_id &&
        decide (f.release_year = year))).drop offset).take 10
      (⟨page.map (rowToMovie db), total⟩, [QueryKind.countQ, QueryKind.pageQ])

end MysqlConnector

namespace LogWriter

/-- The `log_search(log_type)` decorator of `src/log_writer.py` (lines
113–195) around an arbitrary wrapped function `func`.  `func` is modelled as
a state transformer so that "calls the wrapped function exactly once, with
unchanged arguments" is observable; every `return func(*args, **kwargs)` site
of the Python wrapper becomes one `(func s, ...)` below: the `logged=True`
bypass, the early-reject returns of each `log_type` branch, and the shared
final return after the dedup lookup/insert. -/
def log_search {R S : Type} (ev : SearchEvent) (func : S → R × S) (logged : Bool)
    (now : Nat) (coll : List LogDoc) (s : S) : (R × S) × LogOutcome :=
  if logged then (func s, ⟨coll, 0, false⟩)
  else
    match ev with
    | SearchEvent.keyword kw =>
      let keyword := pyStrip (pyLower kw)
      if keyword = [] then (func s, ⟨coll, 0, false⟩)
      else (func s, dedupInsert (LogParams.keywordP keyword) now coll)
    | SearchEvent.genreYear genres yearFrom yearTo =>
      let genresClean := cleanGenres genres
      if genresClean = [] then (func s, ⟨coll, 0, false⟩)
      else (func s, dedupInsert
        (LogParams.genreYearP (pySorted genresClean) (yearsRepr yearFrom yearTo)) now coll)
    | SearchEvent.genreExactYear genres rawYear =>
      let genresClean := cleanGenres genres
      match rawYear with
      | none => (func s, ⟨coll, 0, false⟩)
      | some year =>
        if genresClean = [] ∨ year < 1990 then (func s, ⟨coll, 0, false⟩)
        else (func s, dedupInsert
          (LogParams.genreExactYearP (pySorted genresClean) year) now coll)

end LogWriter

namespace SearchEngine

open LogWriter MysqlConnector

/-- Facade `search_by_keyword` of `src/search_engine.py`: the SQL search
wrapped by `@log_search("keyword")`.  The wrapped function threads the trace
of issued SQL statements as its state. -/
def search_by_keyword (st : Store) (keyword : PStr) (offset : Nat) (logged : Bool)
    (now : Nat) (coll : List LogDoc) :
    (List MovieRec × List QueryKind) × LogOutcome :=
  LogWriter.log_search (SearchEvent.keyword keyword)
    (fun tr =>
      let r := MysqlConnector.search_by_keyword st keyword offset
      (r.1, tr ++ r.2))
    logged now coll []

/-- Facade `search_by_genre_year` of `src/search_engine.py`: the SQL search
wrapped by `@log_search("genre_year")`. -/
def search_by_genre_year (st : Store) (genres : List PStr) (year_from year_to : Int)
    (offset : Nat) (logged : Bool) (now : Nat) (coll : List LogDoc) :
    (GenreResult × List QueryKind) × LogOutcome :=
  LogWriter.log_search (SearchEvent.genreYear genres year_from year_to)
    (fun tr =>
      let r := MysqlConnector.search_by_genre_year st genres year_from year_to offset
      (r.1, tr ++ r.2))
    logged now coll []

/-- Facade `search_by_genre_exact_year` of `src/search_engine.py`: the SQL
search wrapped by `@log_search("genre_exact_year")`.  The facade's `year`
argument is an `int`, so the decorator's `int(raw_year)` conversion always
succeeds: the event carries `some year`. -/
def search_by_genre_exact_year (st : Store) (genres : List PStr) (year : Int)
    (offset : Nat) (logged : Bool) (now : Nat) (coll : List LogDoc) :
    (GenreResult × List QueryKind) × LogOutcome :=
  LogWriter.log_search (SearchEvent.genreExactYear genres (some year))
    (fun tr =>
      let r := MysqlConnector.search_by_genre_exact_year st genres year offset
      (r.1, tr ++ r.2))
    logged now coll []

end SearchEngine

/-- A round of a pagination loop, seen from the outside: the loop either ends
on an empty page printing a terminal `message`, or displays page `pageShown`
and then ends because the user declined, or continues with the advanced
counter `next`. -/
inductive RoundOutcome where
  | ended (message : String)
  | declined (pageShown : Nat)
  | continued (pageShown : Nat) (next : Nat)
deriving DecidableEq, Repr

namespace Pagination

/-- One iteration of the `while True` loop of `paginate_results`
(`src/pagination.py`, lines 60–81), given the fetched `results`, the current
`offset` and the user's answer to the continue prompt. -/
def paginateRound {α : Type} (results : List α) (offset : Nat) (answer : String) :
    RoundOutcome :=
  if results.isEmpty then
    RoundOutcome.ended
      (if offset = 0 then "😢 Ничего не найдено." else "📭 Больше результатов нет.")
  else if answer = "y" then RoundOutcome.continued (offset / 10 + 1) (offset + 10)
  else RoundOutcome.declined (offset / 10 + 1)

/-- The number of fetch rounds `paginate_results` performs before the loop
ends, for a fetch function drawing pages of 10 from the fixed match list
`items` (`fetch offset = (items.drop offset).take 10`), with the user's
answer to the prompt after the page at `offset` given by `answers offset`. -/
def paginateRounds {α : Type} (items : List α) (answers : Nat → String)
    (offset : Nat) : Nat :=
  if h : ((items.drop offset).take 10).isEmpty then 1
  else if answers offset = "y" then 1 + paginateRounds items answers (offset + 10)
  else 1
termination_by items.length - offset
decreasing_by
  have hlt : offset < items.length := by
    by_contra hge
    push_neg at hge
    apply h
    rw [List.isEmpty_iff]
    have hdrop : items.drop offset = [] := List.drop_eq_nil_iff.mpr hge
    rw [hdrop]
    rfl
  omega

end Pagination

namespace UiController

open MysqlConnector

/-- One iteration of the keyword-search loop of `handle_keyword_search`
(`src/ui_controller.py`, lines 131–146). -/
def keywordRound (movies : List MovieRec) (offset : Nat) (answer : String) :
    RoundOutcome :=
  if movies = [] then
    RoundOutcome.ended
      (if offset = 0 then "😢 Фильмы не найдены." else "📭 Больше фильмов не найдено.")
  else if answer = "y" then RoundOutcome.continued (offset / 10 + 1) (offset + 10)
  else RoundOutcome.declined (offset / 10 + 1)

/-- One iteration of the genre+year-range loop of `handle_genre_year_search`
(`src/ui_controller.py`, lines 220–243).  The loop counts pages from 1 and
fetches at `offset = (page - 1) * 10`; on an empty page it always prints
"📭 Больше фильмов не найдено.", with no `offset == 0` distinction. -/
def genreYearRound (movies : List MovieRec) (page : Nat) (answer : String) :
    RoundOutcome :=
  if movies = [] then RoundOutcome.ended "📭 Больше фильмов не найдено."
  else if answer = "y" then RoundOutcome.continued page (page + 1)
  else RoundOutcome.declined page

/-- One iteration of the genre+exact-year loop of `handle_genre_year_search`
(`src/ui_controller.py`, lines 252–275); its body is identical to the
year-range loop's. -/
def genreExactYearRound (movies : List MovieRec) (page : Nat) (answer : String) :
    RoundOutcome :=
  if movies = [] then RoundOutcome.ended "📭 Больше фильмов не найдено."
  else if answer = "y" then RoundOutcome.continued page (page + 1)
  else RoundOutcome.declined page

end UiController

/-- C1: dedup-window idempotence of the logger.  For any two events with the
same normalized parameters `p` (same type, same normalized keyword or sorted
cleaned genre list, same year representation), starting from a clean log
store: a second call at most 5 seconds after the first leaves exactly one
stored entry, and a second call 6 or more seconds later leaves two. -/
theorem dedup_logger_window_idempotent (ev1 ev2 : LogWriter.SearchEvent)
    (p : LogWriter.LogParams) (t1 t2 : Nat)
    (h1 : LogWriter.normParams ev1 = some p)
    (h2 : LogWriter.normParams ev2 = some p) :
    (t2 ≤ t1 + 5 →
      ((LogWriter.logAction ev2 t2 (LogWriter.logAction ev1 t1 []).coll).coll).length = 1) ∧
    (t1 + 6 ≤ t2 →
      ((LogWriter.logAction ev2 t2 (LogWriter.logAction ev1 t1 []).coll).coll).length = 2) := by
  rw [LogWriter.logAction_of_normParams h1]
  rw [LogWriter.logAction_of_normParams h2]
  have hfirst : (LogWriter.dedupInsert p t1 []).coll = [⟨p, t1⟩] := rfl
  rw [hfirst]
  constructor
  · intro hle
    simp [LogWriter.dedupInsert, LogWriter.findRecent, hle]
  · intro hge
    have hnot : ¬ (t2 ≤ t1 + 5) := by omega
    simp [LogWriter.dedupInsert, LogWriter.findRecent, hnot]

theorem dedup_logger_window_idempotent_witness :
    ((LogWriter.logAction (LogWriter.SearchEvent.keyword "thriller".toList) 3
      (LogWriter.logAction (LogWriter.SearchEvent.keyword "thriller".toList) 0 []).coll).coll).length = 1 ∧
    ((LogWriter.logAction (LogWriter.SearchEvent.keyword "thriller".toList) 9
      (LogWriter.logAction (LogWriter.SearchEvent.keyword "thriller".toList) 0 []).coll).coll).length = 2 :=
  ⟨(dedup_logger_window_idempotent _ _ (LogWriter.LogParams.keywordP "thriller".toList)
      0 3 (by decide) (by decide)).1 (by omega),
   (dedup_logger_window_idempotent _ _ (LogWriter.LogParams.keywordP "thriller".toList)
      0 9 (by decide) (by decide)).2 (by omega)⟩

/-- C2: the facade is return-value transparent and decoupled from logging:
the `log_search` wrapper applies the wrapped function exactly once to the
incoming arguments and returns its value (and effect) unchanged, on every
one of its return paths and for both values of `logged`; each of the three
facade functions therefore returns exactly the underlying query builder's
result; in particular `genre_exact_year` with `year = 1985` (below the 1990
threshold) performs no store lookup and no insert, yet the search is still
executed and its result returned. -/
theorem facade_transparent :
    (∀ (R S : Type) (ev : LogWriter.SearchEvent) (func : S → R × S) (logged : Bool)
      (now : Nat) (coll : List LogWriter.LogDoc) (s : S),
      (LogWriter.log_search ev func logged now coll s).1 = func s) ∧
    (∀ (st : MysqlConnector.Store) (kw : PStr) (offset : Nat) (logged : Bool)
      (now : Nat) (coll : List LogWriter.LogDoc),
      (SearchEngine.search_by_keyword st kw offset logged now coll).1
        = MysqlConnector.search_by_keyword st kw offset) ∧
    (∀ (st : MysqlConnector.Store) (gs : List PStr) (yf yt : Int) (offset : Nat)
      (logged : Bool) (now : Nat) (coll : List LogWriter.LogDoc),
      (SearchEngine.search_by_genre_year st gs yf yt offset logged now coll).1
        = MysqlConnector.search_by_genre_year st gs yf yt offset) ∧
    (∀ (st : MysqlConnector.Store) (gs : List PStr) (y : Int) (offset : Nat)
      (logged : Bool) (now : Nat) (coll : List LogWriter.LogDoc),
      (SearchEngine.search_by_genre_exact_year st gs y offset logged now coll).1
        = MysqlConnector.search_by_genre_exact_year st gs y offset) ∧
    (∀ (st : MysqlConnector.Store) (gs : List PStr) (offset : Nat)
      (now : Nat) (coll : List LogWriter.LogDoc),
      (SearchEngine.search_by_genre_exact_year st gs 1985 offset false now coll).2
        = ⟨coll, 0, false⟩) := by
  have hw : ∀ (R S : Type) (ev : LogWriter.SearchEvent) (func : S → R × S) (logged : Bool)
      (now : Nat) (coll : List LogWriter.LogDoc) (s : S),
      (LogWriter.log_search ev func logged now coll s).1 = func s := by
    intro R S ev func logged now coll s
    unfold LogWriter.log_search
    repeat' split
    all_goals dsimp only
    repeat' split
    all_goals rfl
  refine ⟨hw, ?_, ?_, ?_, ?_⟩
  · intro st kw offset logged now coll
    simp only [SearchEngine.search_by_keyword]
    rw [hw]
    simp
  · intro st gs yf yt offset logged now coll
    simp only [SearchEngine.search_by_genre_year]
    rw [hw]
    simp
  · intro st gs y offset logged now coll
    simp only [SearchEngine.search_by_genre_exact_year]
    rw [hw]
    simp
  · intro st gs offset now coll
    have h5 : (1985 : Int) < 1990 := by norm_num
    simp [SearchEngine.search_by_genre_exact_year, LogWriter.log_search, h5]

/-- C3: fail-soft error handling of the query builder.  Whenever the
connection handle is absent or executing a query raises, each of the three
search functions returns the empty well-formed result (empty list for
keyword mode, `{movies := [], total_count := 0}` for the genre modes); being
total Lean functions into plain result types, they propagate no exception. -/
theorem query_builder_fail_soft (st : MysqlConnector.Store) (kw : PStr)
    (gs : List PStr) (yf yt y : Int) (offset : Nat)
    (h : st.conn = none ∨ st.queryFails = true) :
    (MysqlConnector.search_by_keyword st kw offset).1 = [] ∧
    (MysqlConnector.search_by_genre_year st gs yf yt offset).1 = ⟨[], 0⟩ ∧
    (MysqlConnector.search_by_genre_exact_year st gs y offset).1 = ⟨[], 0⟩ := by
  obtain ⟨conn, fails⟩ := st
  cases conn with
  | none => exact ⟨rfl, rfl, rfl⟩
  | some db =>
    rcases h with h | h
    · simp at h
    · have hf : fails = true := h
      subst hf
      exact ⟨rfl, rfl, rfl⟩

theorem query_builder_fail_soft_witness :
    (MysqlConnector.search_by_keyword ⟨none, false⟩ "m".toList 0).1 = [] ∧
    (MysqlConnector.search_by_genre_year ⟨none, false⟩ ["Drama".toList] 2000 2005 0).1 = ⟨[], 0⟩ ∧
    (MysqlConnector.search_by_genre_exact_year ⟨none, false⟩ ["Drama".toList] 2000 0).1 = ⟨[], 0⟩ :=
  query_builder_fail_soft ⟨none, false⟩ "m".toList ["Drama".toList] 2000 2005 2000 0 (Or.inl rfl)

theorem length_page_le {β γ : Type} (l : List β) (f : β → γ) (off : Nat) :
    (((l.drop off).take 10).map f).length ≤ l.length := by
  rw [List.length_map, List.length_take, List.length_drop]
  exact le_trans (min_le_right _ _) (Nat.sub_le _ _)

/-- C4: total-count consistency of the genre searches on a healthy store.
The count query and the page query of `search_by_genre_year` and
`search_by_genre_exact_year` are issued with the identical filter (genre
membership in the cleaned set, year between the bounds / equal to the year),
so `total_count` bounds the page length from above at every offset and is the
same at all offsets of one logical search. -/
theorem genre_total_count_consistent (db : MysqlConnector.Db) (gs : List PStr)
    (yf yt y : Int) (off off1 off2 : Nat) (hab : yf ≤ yt) :
    ((MysqlConnector.search_by_genre_year ⟨some db, false⟩ gs yf yt off).1.movies.length
        ≤ (MysqlConnector.search_by_genre_year ⟨some db, false⟩ gs yf yt off).1.total_count) ∧
    ((MysqlConnector.search_by_genre_year ⟨some db, false⟩ gs yf yt off1).1.total_count
        = (MysqlConnector.search_by_genre_year ⟨some db, false⟩ gs yf yt off2).1.total_count) ∧
    ((MysqlConnector.search_by_genre_exact_year ⟨some db, false⟩ gs y off).1.movies.length
        ≤ (MysqlConnector.search_by_genre_exact_year ⟨some db, false⟩ gs y off).1.total_count) ∧
    ((MysqlConnector.search_by_genre_exact_year ⟨some db, false⟩ gs y off1).1.total_count
        = (MysqlConnector.search_by_genre_exact_year ⟨some db, false⟩ gs y off2).1.total_count) := by
  by_cases hgc : MysqlConnector.genresClean gs = []
  · simp [MysqlConnector.search_by_genre_year, MysqlConnector.search_by_genre_exact_year, hgc]
  · refine ⟨?_, ?_, ?_, ?_⟩ <;>
      simp only [MysqlConnector.search_by_genre_year,
        MysqlConnector.search_by_genre_exact_year, Bool.false_or,
        decide_eq_true_eq, hgc, if_neg hgc, ite_false, decide_False] <;>
      first
        | exact length_page_le _ _ _
        | rfl

theorem genre_total_count_consistent_witness :
    ((MysqlConnector.search_by_genre_year ⟨some ⟨[], [], [], [], []⟩, false⟩
        ["Drama".toList] 2000 2005 0).1.movies.length
      ≤ (MysqlConnector.search_by_genre_year ⟨some ⟨[], [], [], [], []⟩, false⟩
        ["Drama".toList] 2000 2005 0).1.total_count) ∧
    ((MysqlConnector.search_by_genre_year ⟨some ⟨[], [], [], [], []⟩, false⟩
        ["Drama".toList] 2000 2005 0).1.total_count
      = (MysqlConnector.search_by_genre_year ⟨some ⟨[], [], [], [], []⟩, false⟩
        ["Drama".toList] 2000 2005 10).1.total_count) :=
  ⟨(genre_total_count_consistent ⟨[], [], [], [], []⟩ ["Drama".toList]
      2000 2005 2003 0 0 10 (by norm_num)).1,
   (genre_total_count_consistent ⟨[], [], [], [], []⟩ ["Drama".toList]
      2000 2005 2003 0 0 10 (by norm_num)).2.1⟩

theorem paginateRounds_formula {α : Type} (items : List α) (answers : Nat → String)
    (h : ∀ n, answers n = "y") :
    ∀ (fuel offset : Nat), items.length - offset ≤ fuel →
      Pagination.paginateRounds items answers offset
        = (items.length - offset + 9) / 10 + 1 := by
  intro fuel
  induction fuel with
  | zero =>
    intro offset hof
    have hlen : items.length ≤ offset := by omega
    have hempty : ((items.drop offset).take 10).isEmpty = true := by
      rw [List.isEmpty_iff, List.drop_eq_nil_iff.mpr hlen]
      rfl
    rw [Pagination.paginateRounds, dif_pos hempty]
    have hz : items.length - offset = 0 := by omega
    rw [hz]
  | succ n ih =>
    intro offset hof
    by_cases hempty : ((items.drop offset).take 10).isEmpty = true
    · rw [Pagination.paginateRounds, dif_pos hempty]
      have hlen : items.length ≤ offset := by
        rw [List.isEmpty_iff, List.take_eq_nil_iff] at hempty
        rcases hempty with h10 | hd
        · omega
        · exact List.drop_eq_nil_iff.mp hd
      have hz : items.length - offset = 0 := by omega
      rw [hz]
    · rw [Pagination.paginateRounds, dif_neg hempty, h offset, if_pos rfl]
      have hlt : offset < items.length := by
        by_contra hge
        push_neg at hge
        exact hempty (by rw [List.isEmpty_iff, List.drop_eq_nil_iff.mpr hge]; rfl)
      rw [ih (offset + 10) (by omega)]
      omega

/-- C5: paginator termination count.  For the page-of-10 fetch drawn from the
fixed match list `items` (empty page once the offset reaches or passes the
number of matches), if the user affirms every continue prompt the loop of
`paginate_results` terminates after exactly `ceil(total / 10) + 1` fetch
rounds (written `(total + 9) / 10 + 1`). -/
theorem paginator_termination_rounds {α : Type} (items : List α)
    (answers : Nat → String) (h : ∀ n, answers n = "y") :
    Pagination.paginateRounds items answers 0 = (items.length + 9) / 10 + 1 := by
  have hf := paginateRounds_formula items answers h items.length 0 (by omega)
  simpa using hf

theorem paginator_termination_rounds_witness :
    Pagination.paginateRounds [0, 1, 2] (fun _ => "y") 0
      = (([0, 1, 2] : List Nat).length + 9) / 10 + 1 :=
  paginator_termination_rounds [0, 1, 2] (fun _ => "y") (fun _ => rfl)

/-- C6 counterexample: the claim says every pagination loop's terminal
message distinguishes "no results at all" (`offset == 0`) from "no further
results" (`offset > 0`), but both genre flows of `handle_genre_year_search`
print the same "📭 Больше фильмов не найдено." on an empty page at page 1
(offset 0) as at page 2, while the generic paginator and the keyword flow do
distinguish the two situations. -/
theorem genre_flow_terminal_message_counterexample :
    UiController.genreYearRound [] 1 "y"
        = RoundOutcome.ended "📭 Больше фильмов не найдено." ∧
    UiController.genreYearRound [] 2 "y" = UiController.genreYearRound [] 1 "y" ∧
    UiController.genreExactYearRound [] 1 "y"
        = RoundOutcome.ended "📭 Больше фильмов не найдено." ∧
    Pagination.paginateRound ([] : List MysqlConnector.MovieRec) 0 "y"
        ≠ Pagination.paginateRound ([] : List MysqlConnector.MovieRec) 10 "y" ∧
    UiController.keywordRound [] 0 "y" ≠ UiController.keywordRound [] 10 "y" := by
  refine ⟨rfl, rfl, rfl, ?_, ?_⟩ <;> decide

/-- C6 amended: per-round behaviour of every pagination loop.  In the generic
paginator and the keyword flow an empty fetch ends the loop with a terminal
message distinguishing `offset == 0` ("nothing found") from `offset > 0`
("no further results"); in both genre flows an empty fetch ends the loop with
the one fixed "no further results" message at every page, including page 1.
In all four loops a non-empty fetch displays page `offset / 10 + 1` (the
genre flows count pages from 1 with `offset = (page - 1) * 10`), an
affirmative answer advances the offset by exactly 10 (page by 1), and any
non-affirmative answer ends the loop. -/
theorem paginator_round_behaviour :
    (∀ (α : Type) (results : List α) (offset : Nat) (answer : String),
      (results = [] → Pagination.paginateRound results offset answer
          = RoundOutcome.ended
            (if offset = 0 then "😢 Ничего не найдено." else "📭 Больше результатов нет.")) ∧
      (results ≠ [] → answer = "y" → Pagination.paginateRound results offset answer
          = RoundOutcome.continued (offset / 10 + 1) (offset + 10)) ∧
      (results ≠ [] → answer ≠ "y" → Pagination.paginateRound results offset answer
          = RoundOutcome.declined (offset / 10 + 1))) ∧
    (∀ (movies : List MysqlConnector.MovieRec) (offset : Nat) (answer : String),
      (movies = [] → UiController.keywordRound movies offset answer
          = RoundOutcome.ended
            (if offset = 0 then "😢 Фильмы не найдены." else "📭 Больше фильмов не найдено.")) ∧
      (movies ≠ [] → answer = "y" → UiController.keywordRound movies offset answer
          = RoundOutcome.continued (offset / 10 + 1) (offset + 10)) ∧
      (movies ≠ [] → answer ≠ "y" → UiController.keywordRound movies offset answer
          = RoundOutcome.declined (offset / 10 + 1))) ∧
    (∀ (movies : List MysqlConnector.MovieRec) (page : Nat) (answer : String), 1 ≤ page →
      (movies = [] → UiController.genreYearRound movies page answer
          = RoundOutcome.ended "📭 Больше фильмов не найдено.") ∧
      (movies ≠ [] → answer = "y" → UiController.genreYearRound movies page answer
          = RoundOutcome.continued ((page - 1) * 10 / 10 + 1) (page + 1)) ∧
      (movies ≠ [] → answer ≠ "y" → UiController.genreYearRound movies page answer
          = RoundOutcome.declined ((page - 1) * 10 / 10 + 1)) ∧
      ((page + 1 - 1) * 10 = (page - 1) * 10 + 10)) ∧
    (∀ (movies : List MysqlConnector.MovieRec) (page : Nat) (answer : String), 1 ≤ page →
      (movies = [] → UiController.genreExactYearRound movies page answer
          = RoundOutcome.ended "📭 Больше фильмов не найдено.") ∧
      (movies ≠ [] → answer = "y" → UiController.genreExactYearRound movies page answer
          = RoundOutcome.continued ((page - 1) * 10 / 10 + 1) (page + 1)) ∧
      (movies ≠ [] → answer ≠ "y" → UiController.genreExactYearRound movies page answer
          = RoundOutcome.declined ((page - 1) * 10 / 10 + 1)) ∧
      ((page + 1 - 1) * 10 = (page - 1) * 10 + 10)) := by
  have hpage : ∀ page : Nat, 1 ≤ page → (page - 1) * 10 / 10 + 1 = page := by
    intro page hp
    rw [Nat.mul_div_cancel _ (by norm_num)]
    omega
  refine ⟨?_, ?_, ?_, ?_⟩
  · intro α results offset answer
    refine ⟨?_, ?_, ?_⟩
    · intro hres
      simp [Pagination.paginateRound, hres]
    · intro hres hans
      simp [Pagination.paginateRound, hres, hans]
    · intro hres hans
      simp [Pagination.paginateRound, hres, hans]
  · intro movies offset answer
    refine ⟨?_, ?_, ?_⟩
    · intro hres
      simp [UiController.keywordRound, hres]
    · intro hres hans
      simp [UiController.keywordRound, hres, hans]
    · intro hres hans
      simp [UiController.keywordRound, hres, hans]
  · intro movies page answer hp
    refine ⟨?_, ?_, ?_, ?_⟩
    · intro hres
      simp [UiController.genreYearRound, hres]
    · intro hres hans
      rw [hpage page hp]
      simp [UiController.genreYearRound, hres, hans]
    · intro hres hans
      rw [hpage page hp]
      simp [UiController.genreYearRound, hres, hans]
    · omega
  · intro movies page answer hp
    refine ⟨?_, ?_, ?_, ?_⟩
    · intro hres
      simp [UiController.genreExactYearRound, hres]
    · intro hres hans
      rw [hpage page hp]
      simp [UiController.genreExactYearRound, hres, hans]
    · intro hres hans
      rw [hpage page hp]
      simp [UiController.genreExactYearRound, hres, hans]
    · omega

theorem paginator_round_behaviour_witness :
    Pagination.paginateRound ([] : List Nat) 0 "y"
      = RoundOutcome.ended "😢 Ничего не найдено." := by
  have h := (paginator_round_behaviour.1 Nat [] 0 "y").1 rfl
  simpa using h

/-- C7: early-rejection rules of the dedup logger.  An empty normalized
keyword, an empty cleaned genre list, or — in exact-year mode only — a year
that is not an integer or is below 1990, make the logger return without any
store lookup and without any insert; the genre-year-range mode checks no
year bound, so with a non-empty cleaned genre list it always performs its
lookup (and inserts when no recent duplicate exists), whatever the years. -/
theorem logger_early_rejection (now : Nat) (coll : List LogWriter.LogDoc) :
    (∀ kw : PStr, pyStrip (pyLower kw) = [] →
        LogWriter.logAction (LogWriter.SearchEvent.keyword kw) now coll
          = ⟨coll, 0, false⟩) ∧
    (∀ (gs : List PStr) (yf yt : Int), LogWriter.cleanGenres gs = [] →
        LogWriter.logAction (LogWriter.SearchEvent.genreYear gs yf yt) now coll
          = ⟨coll, 0, false⟩) ∧
    (∀ gs : List PStr,
        LogWriter.logAction (LogWriter.SearchEvent.genreExactYear gs none) now coll
          = ⟨coll, 0, false⟩) ∧
    (∀ (gs : List PStr) (y : Int), y < 1990 →
        LogWriter.logAction (LogWriter.SearchEvent.genreExactYear gs (some y)) now coll
          = ⟨coll, 0, false⟩) ∧
    (∀ (gs : List PStr) (y : Int), LogWriter.cleanGenres gs = [] →
        LogWriter.logAction (LogWriter.SearchEvent.genreExactYear gs (some y)) now coll
          = ⟨coll, 0, false⟩) ∧
    (∀ (gs : List PStr) (yf yt : Int), LogWriter.cleanGenres gs ≠ [] →
        (LogWriter.logAction (LogWriter.SearchEvent.genreYear gs yf yt) now coll).lookups = 1 ∧
        (LogWriter.logAction (LogWriter.SearchEvent.genreYear gs yf yt) now []).inserted
          = true) := by
  refine ⟨?_, ?_, ?_, ?_, ?_, ?_⟩
  · intro kw h
    simp [LogWriter.logAction, h]
  · intro gs yf yt h
    simp [LogWriter.logAction, h]
  · intro gs
    simp [LogWriter.logAction]
  · intro gs y h
    simp [LogWriter.logAction, h]
  · intro gs y h
    simp [LogWriter.logAction, h]
  · intro gs yf yt h
    constructor
    · simp only [LogWriter.logAction, if_neg h]
      unfold LogWriter.dedupInsert
      split <;> rfl
    · simp [LogWriter.logAction, h, LogWriter.dedupInsert, LogWriter.findRecent]

theorem logger_early_rejection_witness :
    LogWriter.logAction (LogWriter.SearchEvent.keyword "   ".toList) 7 []
      = ⟨[], 0, false⟩ ∧
    LogWriter.logAction
      (LogWriter.SearchEvent.genreExactYear ["Drama".toList] (some 1985)) 7 []
      = ⟨[], 0, false⟩ ∧
    (LogWriter.logAction
      (LogWriter.SearchEvent.genreYear ["Drama".toList] 1950 1960) 7 []).inserted = true :=
  ⟨(logger_early_rejection 7 []).1 "   ".toList (by decide),
   (logger_early_rejection 7 []).2.2.2.1 ["Drama".toList] 1985 (by norm_num),
   ((logger_early_rejection 7 []).2.2.2.2.2 ["Drama".toList] 1950 1960 (by decide)).2⟩

theorem pySorted_eq_iff_perm (l1 l2 : List PStr) :
    pySorted l1 = pySorted l2 ↔ l1.Perm l2 := by
  constructor
  · intro h
    have p1 := (List.perm_insertionSort strLe l1).symm
    have p2 := List.perm_insertionSort strLe l2
    simp only [pySorted] at h
    exact (p1.trans (h ▸ p2))
  · intro h
    apply List.eq_of_perm_of_sorted (r := strLe)
    · exact ((List.perm_insertionSort strLe l1).trans h).trans
        (List.perm_insertionSort strLe l2).symm
    · exact List.sorted_insertionSort strLe l1
    · exact List.sorted_insertionSort strLe l2

/-- C8: dedup-key normalization.  The keyword key is the lower-cased trimmed
keyword, so `" Thriller "` and `"thriller"` share a key and collide inside
the window (one stored entry).  The genre key is the lexicographically sorted
list of trimmed non-blank genre names without lower-casing: two genre events
with the same years have equal keys exactly when their cleaned genre lists
are permutations of each other (so order or surrounding-whitespace
differences collide), while `["Drama"]` and `["drama"]` have different keys
and produce two stored entries inside the window. -/
theorem dedup_key_normalization :
    (LogWriter.normParams (LogWriter.SearchEvent.keyword " Thriller ".toList)
        = LogWriter.normParams (LogWriter.SearchEvent.keyword "thriller".toList)) ∧
    ((LogWriter.logAction (LogWriter.SearchEvent.keyword "thriller".toList) 3
        (LogWriter.logAction (LogWriter.SearchEvent.keyword " Thriller ".toList) 0
          []).coll).coll.length = 1) ∧
    (∀ (gs1 gs2 : List PStr) (yf yt : Int),
      LogWriter.normParams (LogWriter.SearchEvent.genreYear gs1 yf yt)
          = LogWriter.normParams (LogWriter.SearchEvent.genreYear gs2 yf yt)
        ↔ (LogWriter.cleanGenres gs1).Perm (LogWriter.cleanGenres gs2)) ∧
    (LogWriter.normParams (LogWriter.SearchEvent.genreYear ["Drama".toList] 2000 2005)
        ≠ LogWriter.normParams
            (LogWriter.SearchEvent.genreYear ["drama".toList] 2000 2005)) ∧
    ((LogWriter.logAction (LogWriter.SearchEvent.genreYear ["drama".toList] 2000 2005) 3
        (LogWriter.logAction (LogWriter.SearchEvent.genreYear ["Drama".toList] 2000 2005) 0
          []).coll).coll.length = 2) := by
  refine ⟨by decide, by decide, ?_, by decide, by decide⟩
  intro gs1 gs2 yf yt
  by_cases h1 : LogWriter.cleanGenres gs1 = [] <;>
    by_cases h2 : LogWriter.cleanGenres gs2 = []
  · simp [LogWriter.normParams, h1, h2]
  · simp [LogWriter.normParams, h1, h2, List.nil_perm]
  · simp [LogWriter.normParams, h1, h2, List.perm_nil]
  · simp only [LogWriter.normParams, if_neg h1, if_neg h2, Option.some.injEq,
      LogWriter.LogParams.genreYearP.injEq, and_true]
    exact pySorted_eq_iff_perm _ _

/-- C9: keyword-mode count anomaly.  `search_by_keyword` never issues a
total-count query (its statement trace contains no count query for any input)
and returns only a page of at most 10 movie records, each of whose titles
contains the keyword as a case-insensitive substring; the reported count is
just the length of that page, there being no separate `total_count` in its
result, unlike the two genre modes. -/
theorem keyword_search_no_count (st : MysqlConnector.Store) (kw : PStr) (offset : Nat) :
    MysqlConnector.QueryKind.countQ ∉ (MysqlConnector.search_by_keyword st kw offset).2 ∧
    (MysqlConnector.search_by_keyword st kw offset).1.length ≤ 10 ∧
    ∀ m ∈ (MysqlConnector.search_by_keyword st kw offset).1,
      containsSub (pyLower kw) (pyLower m.title) = true := by
  obtain ⟨conn, fails⟩ := st
  cases conn with
  | none =>
    refine ⟨?_, ?_, ?_⟩ <;> simp [MysqlConnector.search_by_keyword]
  | some db =>
    cases fails with
    | true =>
      refine ⟨?_, ?_, ?_⟩ <;> simp [MysqlConnector.search_by_keyword]
    | false =>
      refine ⟨?_, ?_, ?_⟩
      · simp [MysqlConnector.search_by_keyword]
      · simp only [MysqlConnector.search_by_keyword]
        rw [if_neg Bool.false_ne_true, List.length_map, List.length_take]
        exact min_le_left _ _
      · intro m hm
        simp only [MysqlConnector.search_by_keyword] at hm
        rw [if_neg Bool.false_ne_true] at hm
        rw [List.mem_map] at hm
        obtain ⟨f, hf, rfl⟩ := hm
        have hf' : f ∈ db.film.filter
            (fun f => containsSub (pyLower kw) (pyLower f.title)) :=
          List.mem_of_mem_drop (List.mem_of_mem_take hf)
        have htitle : (MysqlConnector.rowToMovie db f).title = f.title := rfl
        rw [htitle]
        have hp := List.of_mem_filter hf'
        simpa using hp

theorem keyword_search_no_count_witness :
    MysqlConnector.QueryKind.countQ
      ∉ (MysqlConnector.search_by_keyword ⟨none, false⟩ "Matrix".toList 0).2 :=
  (keyword_search_no_count ⟨none, false⟩ "Matrix".toList 0).1

/-- C10: an empty cleaned genre list gives the empty result.  When the genre
list is empty after trimming and dropping blanks, both genre search functions
return `{movies := [], total_count := 0}` on every store: the generated
`IN ()` list is empty, the SQL engine rejects the malformed query, and the
fail-soft handler absorbs the error — the search never falls back to
matching all movies. -/
theorem empty_genres_empty_result (st : MysqlConnector.Store) (gs : List PStr)
    (yf yt y : Int) (offset : Nat) (h : MysqlConnector.genresClean gs = []) :
    (MysqlConnector.search_by_genre_year st gs yf yt offset).1 = ⟨[], 0⟩ ∧
    (MysqlConnector.search_by_genre_exact_year st gs y offset).1 = ⟨[], 0⟩ := by
  obtain ⟨conn, fails⟩ := st
  cases conn with
  | none => exact ⟨rfl, rfl⟩
  | some db =>
    constructor <;>
      simp [MysqlConnector.search_by_genre_year,
        MysqlConnector.search_by_genre_exact_year, h]

theorem empty_genres_empty_result_witness :
    (MysqlConnector.search_by_genre_year
      ⟨some ⟨[⟨1, "Matrix".toList, [], 2000, "PG".toList⟩], [], [], [], []⟩, false⟩
      ["  ".toList, "".toList] 1990 2010 0).1 = ⟨[], 0⟩ :=
  (empty_genres_empty_result
    ⟨some ⟨[⟨1, "Matrix".toList, [], 2000, "PG".toList⟩], [], [], [], []⟩, false⟩
    ["  ".toList, "".toList] 1990 2010 2000 0 (by decide)).1
